import Mathlib

/-!
Shallow embedding of `cachet_url_monitor/expectation.py`: the expectation
evaluators (HttpStatus, Latency, Regex, JsonFieldValueCheck) and the
expectation lifecycle controller (status update, failure damping, status
push, incident push, webhook firing).

External collaborators that are not part of the repository's `src/` tree
(`cachet_url_monitor/status.py` with `ComponentStatus` and `INCIDENT_MAP`,
and `cachet_url_monitor/client.py` with `CachetClient`) are modelled from
the spec where needed.  External calls are recorded as an explicit list of
`Effect` values; logging is not modelled (the spec excludes logging setup).
-/

namespace CachetUrlMonitor

/-- Modelled from the spec: `ComponentStatus` from `cachet_url_monitor/status.py`
(not under `src/`); closed enumeration OPERATIONAL, PERFORMANCE_ISSUES,
PARTIAL_OUTAGE, MAJOR_OUTAGE. -/
inductive ComponentStatus where
  | OPERATIONAL
  | PERFORMANCE_ISSUES
  | PARTIAL_OUTAGE
  | MAJOR_OUTAGE
deriving DecidableEq, Repr

/-- Python exceptions that construction of an `Expectation` can surface:
`ValueError` (from `int()` on a non-numeric string in `HttpStatus.parse_range`),
`ConfigurationValidationError` (unknown `type` in `Expectation.create`,
carrying its message string), and `re.error` (from `re.compile` on an
invalid pattern in `Regex.__init__`). -/
inductive PyError where
  | valueError
  | configurationValidationError (msg : String)
  | reError
deriving DecidableEq, Repr

/-- Is this failure one of those the spec's error taxonomy classes as
configuration validation ("unknown evaluator type, non-numeric HTTP status
range")?  `re.error` is neither of them (it is also not a `ValueError`
subclass in Python). -/
def isConfigValidationFailure : PyError → Bool
  | .valueError => true
  | .configurationValidationError _ => true
  | .reError => false

/-- Split a character list at every occurrence of `sep`, Python
`str.split(sep)` style for a one-character separator: no merging of empty
parts, and the empty input gives one empty part. -/
def splitCharList (sep : Char) : List Char → List (List Char)
  | [] => [[]]
  | c :: cs =>
    let rest := splitCharList sep cs
    if c = sep then [] :: rest
    else
      match rest with
      | [] => [[c]]
      | h :: t => (c :: h) :: t

/-- Python `s.split(sep)` for a one-character separator, as used with
`"-"` in `HttpStatus.parse_range` and `"."` in `JsonFieldValueCheck`. -/
def pySplit (sep : Char) (s : String) : List String :=
  (splitCharList sep s.toList).map List.asString

/-- The numeric value of a digit string. -/
def digitsToNat (cs : List Char) : Nat :=
  cs.foldl (fun a c => 10 * a + (c.toNat - 48)) 0

/-- Python `int(s)` on a string: optional surrounding whitespace, an
optional sign, then a nonempty run of digits; anything else raises
`ValueError` (modelled as `none`).  (Digit-group underscores, which
CPython ≥ 3.6 also accepts, are not modelled.) -/
def pyInt (s : String) : Option Int :=
  let cs := ((s.toList.dropWhile Char.isWhitespace).reverse.dropWhile
    Char.isWhitespace).reverse
  let sign : Int := if cs.headD ' ' = '-' then -1 else 1
  let digits := if cs.headD ' ' = '-' ∨ cs.headD ' ' = '+' then cs.tail else cs
  if digits ≠ [] ∧ digits.all Char.isDigit then
    some (sign * (digitsToNat digits : Int))
  else none

/-- The `status_range` configuration value reaching `HttpStatus.parse_range`:
either already an int (YAML parsed it) or a string. -/
inductive RangeConfig where
  | int (n : Int)
  | str (s : String)
deriving DecidableEq, Repr

namespace HttpStatus

/-- `HttpStatus.parse_range`: an int `n` gives `(n, n + 1)`; otherwise the
string is split on `"-"`; a single part gives `(int(p), int(p) + 1)`, and
two or more parts give `(int(first), int(second))` (only the first two
parts are looked at).  `int()` failures surface as `ValueError`. -/
def parse_range : RangeConfig → Except PyError (Int × Int)
  | .int n => .ok (n, n + 1)
  | .str s =>
    match pySplit '-' s with
    | [one] =>
      match pyInt one with
      | some n => .ok (n, n + 1)
      | none => .error .valueError
    | a :: b :: _ =>
      match pyInt a, pyInt b with
      | some x, some y => .ok (x, y)
      | _, _ => .error .valueError
    | [] => .error .valueError

/-- `HttpStatus.get_status`: OPERATIONAL when the response code lies in
`[lower, upper)`, otherwise the expectation's resolved `incident_status`. -/
def get_status (status_range : Int × Int) (incident_status : ComponentStatus)
    (status_code : Int) : ComponentStatus :=
  if status_range.1 ≤ status_code ∧ status_code < status_range.2 then
    ComponentStatus.OPERATIONAL
  else
    incident_status

end HttpStatus

/-- Python values that `json.loads` can produce (floats are not needed by any
claim, so numbers are integers here).  `null` doubles as Python `None`:
`json.loads` maps JSON null to `None`, and a `dict.get` miss returns `None`. -/
inductive Json where
  | null
  | bool (b : Bool)
  | num (n : Int)
  | str (s : String)
  | arr (elems : List Json)
  | obj (fields : List (String × Json))

mutual

/-- Python `==` on parsed JSON values (structural; `json.loads` produces
dicts with unique keys, where this coincides with Python dict equality up
to key order, which no claim exercises). -/
def Json.beq : Json → Json → Bool
  | .null, .null => true
  | .bool a, .bool b => a == b
  | .num a, .num b => a == b
  | .str a, .str b => a == b
  | .arr xs, .arr ys => beqJsonList xs ys
  | .obj xs, .obj ys => beqJsonFields xs ys
  | _, _ => false

/-- Elementwise Python `==` on JSON arrays. -/
def beqJsonList : List Json → List Json → Bool
  | [], [] => true
  | x :: xs, y :: ys => Json.beq x y && beqJsonList xs ys
  | _, _ => false

/-- Entrywise Python `==` on JSON object field lists. -/
def beqJsonFields : List (String × Json) → List (String × Json) → Bool
  | [], [] => true
  | (k1, v1) :: xs, (k2, v2) :: ys => k1 == k2 && Json.beq v1 v2 && beqJsonFields xs ys
  | _, _ => false

end

/-- The body text of a probe response, as seen through `json.loads`: either a
parse failure (raises, `.error`) or the parsed value. -/
abbrev ResponseJson := Except Unit Json

/-- Python `tmpDict.get(key, {})` as used inside the dotted-path walk of
`JsonFieldValueCheck.get_status`: on a dict, a missing key yields the empty
mapping; on any non-dict value `.get` raises `AttributeError` (`.error`). -/
def pyGetOrEmpty (j : Json) (key : String) : Except Unit Json :=
  match j with
  | .obj fields => .ok ((fields.lookup key).getD (.obj []))
  | _ => .error ()

/-- Python `tmpDict.get(key)` for the final segment: on a dict, `none` when
the key is missing; on any non-dict value `.get` raises (`.error`). -/
def pyGetOrNone (j : Json) (key : String) : Except Unit (Option Json) :=
  match j with
  | .obj fields => .ok (fields.lookup key)
  | _ => .error ()

/-- The loop `for i in range(len(all_fields) - 1): tmpDict = tmpDict.get(all_fields[i], {})`:
walk a list of segments through nested mappings. -/
def walkSegments : List String → Json → Except Unit Json
  | [], j => .ok j
  | f :: fs, j => do walkSegments fs (← pyGetOrEmpty j f)

/-- The value a Python comparison sees: a `dict.get` miss is `None`, which
is the same Python value as a parsed JSON null. -/
def pyVal : Option Json → Json
  | none => .null
  | some j => j

namespace JsonFieldValueCheck

/-- `JsonFieldValueCheck.get_status`: parse the body, walk all but the last
of `all_fields` through nested mappings (missing segment yields an empty
mapping), fetch the last segment with `.get`, and compare the result with
the configured `value` under Python `==`; any exception along the way
(unparsable body, `.get` on a non-dict) is swallowed by the bare `except`
and yields `incident_status`.  `all_fields` is `field.split(".")`, computed
at construction. -/
def get_status (all_fields : List String) (value : Json)
    (incident_status : ComponentStatus) (response : ResponseJson) : ComponentStatus :=
  match (do
      let j ← response
      let d ← walkSegments all_fields.dropLast j
      pyGetOrNone d (all_fields.getLastD "")) with
  | .ok v => if Json.beq (pyVal v) value then ComponentStatus.OPERATIONAL else incident_status
  | .error _ => incident_status

end JsonFieldValueCheck

/-- Spec-side rendering of the dotted-path traversal, written from the spec's
words: split the field name on `"."`, walk all but the last segment through
nested mappings with a missing segment yielding an empty mapping, then look
the last segment up. -/
def specTraversal (field : String) (j : Json) : Except Unit (Option Json) :=
  let segments := pySplit '.' field
  do pyGetOrNone (← walkSegments segments.dropLast j) (segments.getLastD "")

/-- Spec-side predicate (for the range-parsing claim): the string is a single
numeric string, i.e. `int()` accepts it whole. -/
def specSingleNumericString (s : String) : Bool :=
  (pyInt s).isSome

/-- Spec-side predicate (for the range-parsing claim): the string is a
`"low-high"` numeric string, i.e. it splits on `"-"` into exactly two parts,
both numeric. -/
def specLowHighString (s : String) : Bool :=
  match pySplit '-' s with
  | [a, b] => (pyInt a).isSome && (pyInt b).isSome
  | _ => false

/-- The lifecycle fields that `Expectation.__init__` creates exactly when
`component_id` is not `None` (a bound expectation).  `incident_id` is
`none` while no incident is open (`hasattr(self, "incident_id")` is false:
the attribute is created on incident creation and deleted on resolution). -/
structure BoundFields where
  component_id : Nat
  componemt_name : String
  component_status : ComponentStatus
  previous_component_status : ComponentStatus
  current_fails : Nat
  trigger_update : Bool
  message : String
  allowed_fails : Option Nat
  independent : Bool
  incident_id : Option Nat
deriving DecidableEq, Repr

/-- One configured webhook: its `url` and the `ok` flag of the result its
`push_incident(title, message)` call would return. -/
structure Webhook where
  url : String
  ok : Bool
deriving DecidableEq, Repr

/-- An external call made during a probe cycle (logging is not modelled). -/
inductive Effect where
  | getComponentNameAndStatusCall (component_id : Nat)
  | getComponentStatusCall (component_id : Nat)
  | pushStatusCall (component_id : Nat) (status : ComponentStatus)
  | incidentUpdateCall (component_id : Nat) (status : ComponentStatus)
      (public_incidents : Bool) (incident_title : String) (previous_incident_id : Nat)
  | incidentCreateCall (component_id : Nat) (status : ComponentStatus)
      (public_incidents : Bool) (incident_title : String) (message : String)
  | webhookCall (url : String) (title : String) (message : String)
deriving DecidableEq, Repr

/-- `Expectation.update_component_status(status, response)` on a bound
expectation: shift `component_status` into `previous_component_status`,
store the new classification, and capture `get_message(response)` (the
response is represented here by its classification and derived message,
since `get_message` is evaluator-specific and total). -/
def bupdate (status : ComponentStatus) (message : String) (b : BoundFields) : BoundFields :=
  { b with
    previous_component_status := b.component_status
    component_status := status
    message := message }

/-- `Expectation.if_trigger_update(allowed_fails)` on a bound expectation:
the instance's `allowed_fails` overrides the caller-supplied default; a
non-operational status increments `current_fails` and, while still within
the threshold, sets `trigger_update := false`; otherwise `current_fails`
resets to 0 and `trigger_update := true`. -/
def bdamp (allowed_fails_default : Nat) (b : BoundFields) : BoundFields :=
  let allowed_fails := b.allowed_fails.getD allowed_fails_default
  if b.component_status ≠ ComponentStatus.OPERATIONAL then
    let current_fails := b.current_fails + 1
    if current_fails ≤ allowed_fails then
      { b with current_fails := current_fails, trigger_update := false }
    else
      { b with current_fails := 0, trigger_update := true }
  else
    { b with current_fails := 0, trigger_update := true }

/-- `Expectation.push_status(client)` on a bound expectation.  `api_status`
is the answer `client.get_component_status(component_id)` would give; the
push result only affects logging and is not modelled. -/
def bpush (api_status : ComponentStatus) (b : BoundFields) : BoundFields × List Effect :=
  if b.previous_component_status = b.component_status then
    ({ b with trigger_update := false }, [])
  else
    let b := { b with previous_component_status := b.component_status }
    if ¬ b.trigger_update then
      (b, [])
    else if b.component_status = api_status then
      (b, [Effect.getComponentStatusCall b.component_id])
    else
      (b, [Effect.getComponentStatusCall b.component_id,
           Effect.pushStatusCall b.component_id b.component_status])

/-- The notification title `Expectation.trigger_webhooks` derives from the
endpoint name, the bound component's display name, and the current status
(three templates); in the source this title feeds only the success log
message of each webhook delivery. -/
def derivedTitle (endpoint_name : String) (b : BoundFields) : String :=
  if b.component_status = ComponentStatus.PERFORMANCE_ISSUES then
    endpoint_name ++ " (Component " ++ b.componemt_name ++ ") degraded"
  else if b.component_status = ComponentStatus.OPERATIONAL then
    endpoint_name ++ " (Component " ++ b.componemt_name ++ ") OK"
  else
    endpoint_name ++ " (Component " ++ b.componemt_name ++ ") unavailable"

/-- `Expectation.trigger_webhooks(endpoint_name, incident_title, webhooks)`
on a bound expectation: every configured webhook gets one
`push_incident(incident_title, self.message)` call, in order, whatever each
delivery's outcome (the per-webhook result is only logged, never breaks the
loop; the derived title appears only in log text). -/
def btrigger_webhooks (endpoint_name incident_title : String)
    (webhooks : List Webhook) (b : BoundFields) : List Effect :=
  let _title := derivedTitle endpoint_name b
  webhooks.map fun w => Effect.webhookCall w.url incident_title b.message

/-- `Expectation.push_incident(client, public_incidents, endpoint_name,
incident_title, webhooks)` on a bound expectation.  `incident_ok` is the
`ok` flag of the incident call's result and `new_incident_id` the id a
successful creation returns. -/
def bincident (incident_ok : Bool) (new_incident_id : Nat) (public_incidents : Bool)
    (endpoint_name incident_title : String) (webhooks : List Webhook)
    (b : BoundFields) : BoundFields × List Effect :=
  if ¬ b.trigger_update then
    (b, [])
  else
    match b.incident_id with
    | some iid =>
      if b.component_status = ComponentStatus.OPERATIONAL then
        let b' := if incident_ok then { b with incident_id := none } else b
        (b', Effect.incidentUpdateCall b.component_id b.component_status
               public_incidents incident_title iid
             :: btrigger_webhooks endpoint_name incident_title webhooks b')
      else
        (b, [])
    | none =>
      if b.component_status ≠ ComponentStatus.OPERATIONAL then
        let b' := if incident_ok then { b with incident_id := some new_incident_id } else b
        (b', Effect.incidentCreateCall b.component_id b.component_status
               public_incidents incident_title b.message
             :: btrigger_webhooks endpoint_name incident_title webhooks b')
      else
        (b, [])

/-- The static data of a probe cycle: the caller-supplied damping default
and the arguments the controller passes to `push_incident`. -/
structure CycleEnv where
  allowed_fails_default : Nat
  public_incidents : Bool
  endpoint_name : String
  incident_title : String
  webhooks : List Webhook

/-- The per-cycle inputs: the evaluator's classification of this cycle's
response, the derived diagnostic message, and the answers the external
client gives to this cycle's calls. -/
structure CycleInput where
  classification : ComponentStatus
  message : String
  api_status : ComponentStatus
  incident_ok : Bool
  new_incident_id : Nat
deriving DecidableEq, Repr

/-- One probe cycle on a bound expectation, in the controller's fixed order:
evaluate (`update_component_status`), damping (`if_trigger_update`),
`push_status`, `push_incident`. -/
def runCycle (env : CycleEnv) (inp : CycleInput) (b : BoundFields) :
    BoundFields × List Effect :=
  let b2 := bdamp env.allowed_fails_default (bupdate inp.classification inp.message b)
  let p3 := bpush inp.api_status b2
  let p4 := bincident inp.incident_ok inp.new_incident_id env.public_incidents
    env.endpoint_name env.incident_title env.webhooks p3.1
  (p4.1, p3.2 ++ p4.2)

/-- A sequence of probe cycles, accumulating the external calls. -/
def runCycles (env : CycleEnv) : List CycleInput → BoundFields → BoundFields × List Effect
  | [], b => (b, [])
  | inp :: rest, b =>
    let p1 := runCycle env inp b
    let p2 := runCycles env rest p1.1
    (p2.1, p1.2 ++ p2.2)

/-- The state a bound expectation is in at the moment `push_status` makes
its redundancy check during a cycle: after that cycle's evaluate and
damping steps. -/
def statePreCheck (env : CycleEnv) (inp : CycleInput) (b : BoundFields) : BoundFields :=
  bdamp env.allowed_fails_default (bupdate inp.classification inp.message b)

/-- Is this effect a backend `push_status` call? -/
def isPushStatusCall : Effect → Bool
  | .pushStatusCall _ _ => true
  | _ => false

/-- Number of backend `push_status` calls in an effect list. -/
def countPushStatus (effects : List Effect) : Nat :=
  effects.countP isPushStatusCall

/-- The evaluator-specific data each `Expectation` subclass parses in its
own `__init__` before calling the base constructor.  Regex pattern
compilation is kept as the raw pattern string (regex matching semantics are
exercised by no claim). -/
inductive Evaluator where
  | httpStatus (status_range : Int × Int)
  | latency (threshold : Int)
  | regex (regex_string : String)
  | jsonCheck (field : String) (all_fields : List String) (value : Json)

/-- An `Expectation` after `__init__`: the resolved `incident_status`, the
subclass data, and the lifecycle fields, which exist exactly when
`component_id` was present in the configuration. -/
structure Expectation where
  evaluator : Evaluator
  incident_status : ComponentStatus
  bound : Option BoundFields

/-- Modelled from the spec: the reporting client (`cachet_url_monitor/client.py`,
not under `src/`); only `get_component_name_and_status(component_id)`, the
single query made at construction, is needed here — the other client calls
are answered through per-cycle inputs. -/
structure Client where
  get_component_name_and_status : Nat → String × ComponentStatus

/-- The configuration record of one expectation, in the shape the spec
gives: `type`, optional `incident` label, optional `component_id`, optional
`allowed_fails`, optional `is_independent`, and the type-specific fields. -/
structure Configuration where
  type : String
  incident : Option String
  component_id : Option Nat
  allowed_fails : Option Nat
  is_independent : Option Bool
  status_range : RangeConfig
  threshold : Int
  regex : String
  field : String
  value : Json

/-- `Expectation.parse_incident_status`: look the configured `incident`
label (or `None` when absent) up in `INCIDENT_MAP`, falling back to the
evaluator's default incident status.  `incident_map` abstracts the
`INCIDENT_MAP` dict of `cachet_url_monitor/status.py` (not under `src/`),
modelled from the spec: a mapping from configuration incident labels to
statuses; `None` is not a label of the map. -/
def parse_incident_status (incident_map : String → Option ComponentStatus)
    (incident : Option String) (default_incident : ComponentStatus) : ComponentStatus :=
  match incident with
  | none => default_incident
  | some label => (incident_map label).getD default_incident

/-- `Expectation.__init__(configuration, client)`: resolve `incident_status`,
and when `component_id` is present, query the component's name and status
once and create the lifecycle fields. -/
def initExpectation (evaluator : Evaluator) (default_incident : ComponentStatus)
    (incident_map : String → Option ComponentStatus)
    (configuration : Configuration) (client : Client) : Expectation × List Effect :=
  let incident_status :=
    parse_incident_status incident_map configuration.incident default_incident
  match configuration.component_id with
  | none =>
    ({ evaluator := evaluator, incident_status := incident_status, bound := none }, [])
  | some cid =>
    let ns := client.get_component_name_and_status cid
    ({ evaluator := evaluator
       incident_status := incident_status
       bound := some
         { component_id := cid
           componemt_name := ns.1
           component_status := ns.2
           previous_component_status := ns.2
           current_fails := 0
           trigger_update := true
           message := ""
           allowed_fails := configuration.allowed_fails
           independent := configuration.is_independent.getD false
           incident_id := none } },
     [Effect.getComponentNameAndStatusCall cid])

/-- `Expectation.create(configuration, client)`: dispatch on the `type`
field over the four known evaluators (each subclass parses its own fields,
then runs the base `__init__` with its default incident status); an unknown
type raises `ConfigurationValidationError(f"Invalid type: ...")`.
`re_compile` abstracts whether Python `re.compile` accepts a pattern
(regular-expression syntax itself is not modelled): `Regex.__init__`
compiles its pattern at construction, before the base `__init__`, and an
invalid pattern raises `re.error` there. -/
def Expectation.create (re_compile : String → Bool)
    (incident_map : String → Option ComponentStatus)
    (configuration : Configuration) (client : Client) :
    Except PyError (Expectation × List Effect) :=
  if configuration.type = "HTTP_STATUS" then
    match HttpStatus.parse_range configuration.status_range with
    | .error e => .error e
    | .ok r =>
      .ok (initExpectation (.httpStatus r) ComponentStatus.PARTIAL_OUTAGE
        incident_map configuration client)
  else if configuration.type = "LATENCY" then
    .ok (initExpectation (.latency configuration.threshold)
      ComponentStatus.PERFORMANCE_ISSUES incident_map configuration client)
  else if configuration.type = "REGEX" then
    if re_compile configuration.regex then
      .ok (initExpectation (.regex configuration.regex)
        ComponentStatus.PARTIAL_OUTAGE incident_map configuration client)
    else
      .error .reError
  else if configuration.type = "JSON_CHECK" then
    .ok (initExpectation
      (.jsonCheck configuration.field (pySplit '.' configuration.field) configuration.value)
      ComponentStatus.PARTIAL_OUTAGE incident_map configuration client)
  else
    .error (.configurationValidationError ("Invalid type: " ++ configuration.type))

/-! ### Concrete sample values used by witnesses and counterexamples -/

/-- A client whose component query always answers `("comp", OPERATIONAL)`. -/
def sampleClient : Client :=
  ⟨fun _ => ("comp", ComponentStatus.OPERATIONAL)⟩

/-- An empty incident map (no incident labels configured). -/
def emptyIncidentMap : String → Option ComponentStatus := fun _ => none

/-- An HTTP_STATUS configuration bound to component 1 with `allowed_fails: 2`. -/
def sampleConfigHttp : Configuration :=
  { type := "HTTP_STATUS", incident := none, component_id := some 1
    allowed_fails := some 2, is_independent := none, status_range := .str "200-300"
    threshold := 1, regex := ".*", field := "", value := .null }

/-- The same configuration with an unknown `type`. -/
def sampleConfigFoo : Configuration :=
  { sampleConfigHttp with type := "FOO" }

/-- A `re.compile` behaviour recording one ground fact about Python: the
unbalanced pattern `"("` is rejected with `re.error` (every other pattern
is taken as accepted here). -/
def sampleReCompile : String → Bool := fun pattern => pattern ≠ "("

/-- A REGEX configuration whose pattern `"("` does not compile. -/
def sampleConfigBadRegex : Configuration :=
  { sampleConfigHttp with type := "REGEX", regex := "(" }

/-- A freshly constructed bound state (OPERATIONAL, `allowed_fails = 2`). -/
def sampleFreshState : BoundFields :=
  { component_id := 1, componemt_name := "comp"
    component_status := ComponentStatus.OPERATIONAL
    previous_component_status := ComponentStatus.OPERATIONAL
    current_fails := 0, trigger_update := true, message := ""
    allowed_fails := some 2, independent := false, incident_id := none }

/-- A bound state just after an evaluation that turned MAJOR_OUTAGE. -/
def sampleOutageState : BoundFields :=
  { component_id := 1, componemt_name := "comp"
    component_status := ComponentStatus.MAJOR_OUTAGE
    previous_component_status := ComponentStatus.OPERATIONAL
    current_fails := 0, trigger_update := false, message := "down"
    allowed_fails := none, independent := false, incident_id := none }

/-- A bound state with an open incident and an OPERATIONAL classification. -/
def sampleRecoveryState : BoundFields :=
  { component_id := 1, componemt_name := "comp"
    component_status := ComponentStatus.OPERATIONAL
    previous_component_status := ComponentStatus.MAJOR_OUTAGE
    current_fails := 0, trigger_update := true, message := ""
    allowed_fails := none, independent := false, incident_id := some 5 }

/-- A cycle environment with no webhooks. -/
def sampleEnv : CycleEnv :=
  { allowed_fails_default := 0, public_incidents := true
    endpoint_name := "endpoint", incident_title := "incident", webhooks := [] }

/-- A probe cycle whose evaluation classifies PARTIAL_OUTAGE. -/
def sampleFailingInput : CycleInput :=
  { classification := ComponentStatus.PARTIAL_OUTAGE, message := "fail"
    api_status := ComponentStatus.OPERATIONAL, incident_ok := true, new_incident_id := 7 }

/-! ### Helper lemmas -/

/-- `splitCharList` always produces at least one part. -/
theorem splitCharList_ne_nil (sep : Char) (cs : List Char) : splitCharList sep cs ≠ [] := by
  induction cs with
  | nil => simp [splitCharList]
  | cons c cs ih =>
    unfold splitCharList
    by_cases hc : c = sep
    · simp [hc]
    · simp only [hc, if_false]
      cases hsp : splitCharList sep cs with
      | nil => exact absurd hsp ih
      | cons h t => simp

/-- Python `split` always produces at least one part. -/
theorem pySplit_ne_nil (sep : Char) (s : String) : pySplit sep s ≠ [] := by
  unfold pySplit
  intro h
  exact splitCharList_ne_nil sep s.toList (List.map_eq_nil_iff.mp h)

/-- The evaluate step stores the new classification. -/
theorem bupdate_component_status (s : ComponentStatus) (m : String) (b : BoundFields) :
    (bupdate s m b).component_status = s := rfl

/-- The evaluate step shifts the old status into `previous_component_status`. -/
theorem bupdate_previous (s : ComponentStatus) (m : String) (b : BoundFields) :
    (bupdate s m b).previous_component_status = b.component_status := rfl

/-- The damping step never changes `component_status`. -/
theorem bdamp_component_status (d : Nat) (b : BoundFields) :
    (bdamp d b).component_status = b.component_status := by
  simp only [bdamp]
  split_ifs <;> rfl

/-- The damping step never changes `previous_component_status`. -/
theorem bdamp_previous (d : Nat) (b : BoundFields) :
    (bdamp d b).previous_component_status = b.previous_component_status := by
  simp only [bdamp]
  split_ifs <;> rfl

/-- The status-push step never changes `component_status`. -/
theorem bpush_component_status (api : ComponentStatus) (b : BoundFields) :
    ((bpush api b).1).component_status = b.component_status := by
  simp only [bpush]
  split_ifs <;> rfl

/-- When the redundancy check finds no change, `push_status` only lowers
`trigger_update`, issuing no external call. -/
theorem bpush_suppress (api : ComponentStatus) (b : BoundFields)
    (h : b.previous_component_status = b.component_status) :
    bpush api b = ({ b with trigger_update := false }, []) := by
  unfold bpush
  simp [h]

/-- The incident step never changes `component_status`. -/
theorem bincident_component_status (ok : Bool) (nid : Nat) (pub : Bool)
    (en t : String) (ws : List Webhook) (b : BoundFields) :
    ((bincident ok nid pub en t ws b).1).component_status = b.component_status := by
  simp only [bincident]
  split
  · rfl
  · split
    · split_ifs <;> rfl
    · split_ifs <;> rfl

/-- A full cycle leaves `component_status` at this cycle's classification. -/
theorem runCycle_component_status (env : CycleEnv) (inp : CycleInput) (b : BoundFields) :
    ((runCycle env inp b).1).component_status = inp.classification := by
  unfold runCycle
  rw [bincident_component_status, bpush_component_status, bdamp_component_status,
    bupdate_component_status]

/-- After a sequence of cycles, `component_status` is the classification of
the last cycle (or the initial status when there was none). -/
theorem runCycles_component_status (env : CycleEnv) (inps : List CycleInput) (b : BoundFields) :
    ((runCycles env inps b).1).component_status =
      (inps.map CycleInput.classification).getLastD b.component_status := by
  induction inps generalizing b with
  | nil => rfl
  | cons inp rest ih =>
    simp only [runCycles, List.map_cons, List.getLastD_cons]
    rw [ih, runCycle_component_status]

/-- One `push_status` run issues at most one backend status push. -/
theorem countPush_bpush_le (api : ComponentStatus) (b : BoundFields) :
    countPushStatus (bpush api b).2 ≤ 1 := by
  simp only [bpush, countPushStatus]
  split_ifs <;> simp [isPushStatusCall]

/-- The incident step issues no backend status push. -/
theorem countPush_bincident (ok : Bool) (nid : Nat) (pub : Bool)
    (en t : String) (ws : List Webhook) (b : BoundFields) :
    countPushStatus (bincident ok nid pub en t ws b).2 = 0 := by
  simp only [bincident, countPushStatus, btrigger_webhooks]
  split
  · simp
  · split
    · split_ifs <;> simp [isPushStatusCall, List.countP_cons, List.countP_map]
    · split_ifs <;> simp [isPushStatusCall, List.countP_cons, List.countP_map]

/-- One full cycle issues at most one backend status push. -/
theorem countPush_runCycle_le (env : CycleEnv) (inp : CycleInput) (b : BoundFields) :
    countPushStatus (runCycle env inp b).2 ≤ 1 := by
  simp only [runCycle, countPushStatus]
  rw [List.countP_append]
  have h1 := countPush_bpush_le inp.api_status
    (bdamp env.allowed_fails_default (bupdate inp.classification inp.message b))
  have h2 := countPush_bincident inp.incident_ok inp.new_incident_id env.public_incidents
    env.endpoint_name env.incident_title env.webhooks
    (bpush inp.api_status (bdamp env.allowed_fails_default
      (bupdate inp.classification inp.message b))).1
  unfold countPushStatus at h1 h2
  omega

/-- A cycle whose classification repeats the current status issues no
backend status push: the redundancy check suppresses it. -/
theorem countPush_runCycle_same (env : CycleEnv) (inp : CycleInput) (b : BoundFields)
    (h : b.component_status = inp.classification) :
    countPushStatus (runCycle env inp b).2 = 0 := by
  simp only [runCycle, countPushStatus]
  have hprev : (bdamp env.allowed_fails_default
      (bupdate inp.classification inp.message b)).previous_component_status =
      (bdamp env.allowed_fails_default
      (bupdate inp.classification inp.message b)).component_status := by
    rw [bdamp_previous, bdamp_component_status, bupdate_previous, bupdate_component_status, h]
  rw [bpush_suppress inp.api_status _ hprev]
  rw [List.countP_append]
  have h2 := countPush_bincident inp.incident_ok inp.new_incident_id env.public_incidents
    env.endpoint_name env.incident_title env.webhooks
    ({ bdamp env.allowed_fails_default (bupdate inp.classification inp.message b) with
      trigger_update := false })
  unfold countPushStatus at h2
  simpa using h2

/-- Once the status equals the constant classification, a run of cycles with
that classification issues no backend status push at all. -/
theorem countPush_runCycles_zero (env : CycleEnv) (c : ComponentStatus)
    (inps : List CycleInput) (b : BoundFields) (hb : b.component_status = c)
    (h : ∀ inp ∈ inps, inp.classification = c) :
    countPushStatus (runCycles env inps b).2 = 0 := by
  induction inps generalizing b with
  | nil => rfl
  | cons inp rest ih =>
    have hc : inp.classification = c := h inp (List.mem_cons_self inp rest)
    unfold runCycles countPushStatus
    rw [List.countP_append]
    have hz := countPush_runCycle_same env inp b (hb.trans hc.symm)
    unfold countPushStatus at hz
    rw [hz]
    have hrest := ih ((runCycle env inp b).1)
      ((runCycle_component_status env inp b).trans hc)
      (fun i hi => h i (List.mem_cons_of_mem inp hi))
    unfold countPushStatus at hrest
    simpa using hrest

/-! ### Claims -/

/-- C7 (counterexample): `"200-300-400"` is neither a single numeric string
nor a `"low-high"` numeric string, yet `HttpStatus.parse_range` does not
fail on it: the parts after the second are silently ignored and it parses
to `(200, 300)`. -/
theorem C7_extra_parts_counterexample :
    specSingleNumericString "200-300-400" = false ∧
    specLowHighString "200-300-400" = false ∧
    HttpStatus.parse_range (.str "200-300-400") = .ok (200, 300) :=
  ⟨rfl, rfl, rfl⟩

/-- C7 (amended): `parse_range` maps `200`, `"200"`, `"200-300"` to
`(200, 201)`, `(200, 201)`, `(200, 300)` and fails with `ValueError` on
`"foo"`; in general an int `n` gives `(n, n + 1)` and a string fails with a
value-parsing error exactly when its single dash-separated part, or one of
its first two dash-separated parts, is non-numeric — parts after the second
are ignored, not rejected. -/
theorem C7_parse_range_round_trip :
    HttpStatus.parse_range (.int 200) = .ok (200, 201) ∧
    HttpStatus.parse_range (.str "200") = .ok (200, 201) ∧
    HttpStatus.parse_range (.str "200-300") = .ok (200, 300) ∧
    HttpStatus.parse_range (.str "foo") = .error .valueError ∧
    (∀ n : Int, HttpStatus.parse_range (.int n) = .ok (n, n + 1)) ∧
    (∀ s : String, HttpStatus.parse_range (.str s) = .error .valueError ↔
      ((∃ one, pySplit '-' s = [one] ∧ pyInt one = none) ∨
       (∃ a b rest, pySplit '-' s = a :: b :: rest ∧ (pyInt a = none ∨ pyInt b = none)))) := by
  refine ⟨rfl, rfl, rfl, rfl, fun n => rfl, fun s => ?_⟩
  unfold HttpStatus.parse_range
  cases hsp : pySplit '-' s with
  | nil => exact absurd hsp (pySplit_ne_nil '-' s)
  | cons a rest =>
    cases rest with
    | nil =>
      cases h1 : pyInt a <;> simp [h1, hsp]
    | cons b rest' =>
      cases h1 : pyInt a <;> cases h2 : pyInt b <;>
        simp [h1, h2, hsp] <;>
        first
          | exact ⟨a, b, ⟨rfl, rfl⟩, Or.inl h1⟩
          | exact ⟨a, b, ⟨rfl, rfl⟩, Or.inr h2⟩

/-- C8: `HttpStatus.get_status` returns OPERATIONAL on an in-range code and
the resolved `incident_status` otherwise (an if-and-only-if whenever the
resolved incident status is itself not OPERATIONAL); with range
`"200-300"`, codes 200 and 299 are OPERATIONAL and 300 gets the configured
incident status; and a configured incident label overrides the evaluator
default in `parse_incident_status`. -/
theorem C8_http_status_classification (status_range : Int × Int)
    (inc : ComponentStatus) (c : Int) :
    (status_range.1 ≤ c ∧ c < status_range.2 →
      HttpStatus.get_status status_range inc c = .OPERATIONAL) ∧
    (¬(status_range.1 ≤ c ∧ c < status_range.2) →
      HttpStatus.get_status status_range inc c = inc) ∧
    (inc ≠ .OPERATIONAL →
      (HttpStatus.get_status status_range inc c = .OPERATIONAL ↔
        status_range.1 ≤ c ∧ c < status_range.2)) ∧
    HttpStatus.parse_range (.str "200-300") = .ok (200, 300) ∧
    HttpStatus.get_status (200, 300) inc 200 = .OPERATIONAL ∧
    HttpStatus.get_status (200, 300) inc 299 = .OPERATIONAL ∧
    HttpStatus.get_status (200, 300) inc 300 = inc ∧
    (∀ (incident_map : String → Option ComponentStatus) (label : String)
        (st dflt : ComponentStatus), incident_map label = some st →
      parse_incident_status incident_map (some label) dflt = st) := by
  refine ⟨fun h => ?_, fun h => ?_, fun h => ?_, rfl, ?_, ?_, ?_, ?_⟩
  · simp [HttpStatus.get_status, h]
  · simp [HttpStatus.get_status, h]
  · constructor
    · intro hop
      by_contra hrange
      simp [HttpStatus.get_status, hrange] at hop
      exact h hop
    · intro hrange
      simp [HttpStatus.get_status, hrange]
  · simp [HttpStatus.get_status]
  · simp [HttpStatus.get_status]
  · simp [HttpStatus.get_status]
  · intro incident_map label st dflt h
    simp [parse_incident_status, h]

/-- C8 witness: instantiated at incident status PARTIAL_OUTAGE and code 250. -/
theorem C8_http_status_classification_witness :
    HttpStatus.get_status (200, 300) ComponentStatus.PARTIAL_OUTAGE 250 =
      ComponentStatus.OPERATIONAL :=
  (C8_http_status_classification (200, 300) ComponentStatus.PARTIAL_OUTAGE 250).1
    (by norm_num)

/-- C6 (counterexample): with field `"a"` and configured expected value
`null`, a body `{}` has no value at the path, yet `get_status` returns
OPERATIONAL (the `.get` miss yields Python `None`, which equals the
configured `None`) rather than the resolved incident status. -/
theorem C6_missing_path_counterexample :
    specTraversal "a" (.obj []) = .ok none ∧
    JsonFieldValueCheck.get_status (pySplit '.' "a") .null .PARTIAL_OUTAGE
      (.ok (.obj [])) = .OPERATIONAL ∧
    ComponentStatus.OPERATIONAL ≠ ComponentStatus.PARTIAL_OUTAGE :=
  ⟨rfl, rfl, by decide⟩

/-- C6 (amended): `JsonFieldValueCheck.get_status` never raises — it always
returns either OPERATIONAL or the resolved incident status; an unparsable
body yields the incident status; and on a parsed body it agrees with the
spec's dotted-path traversal: OPERATIONAL exactly when the traversal
succeeds and its result (Python `None` for a missing final segment)
compares equal under Python `==` to the configured expected value, and the
incident status in every other case — including a type mismatch during
traversal, and a missing path unless the configured expected value is
`null`. -/
theorem C6_json_field_value_check (field : String) (value : Json)
    (inc : ComponentStatus) (resp : ResponseJson) :
    (JsonFieldValueCheck.get_status (pySplit '.' field) value inc resp = .OPERATIONAL ∨
     JsonFieldValueCheck.get_status (pySplit '.' field) value inc resp = inc) ∧
    (resp = .error () → JsonFieldValueCheck.get_status (pySplit '.' field) value inc resp = inc) ∧
    (∀ j, resp = .ok j →
      JsonFieldValueCheck.get_status (pySplit '.' field) value inc resp =
        match specTraversal field j with
        | .ok v => if Json.beq (pyVal v) value then .OPERATIONAL else inc
        | .error _ => inc) := by
  refine ⟨?_, fun h => ?_, fun j h => ?_⟩
  · cases hres : (do
        let j ← resp
        let d ← walkSegments (pySplit '.' field).dropLast j
        pyGetOrNone d ((pySplit '.' field).getLastD "") : Except Unit (Option Json)) with
    | ok v =>
      by_cases hb : Json.beq (pyVal v) value
      · left
        unfold JsonFieldValueCheck.get_status
        rw [hres]
        simp [hb]
      · right
        unfold JsonFieldValueCheck.get_status
        rw [hres]
        simp [hb]
    | error e =>
      right
      unfold JsonFieldValueCheck.get_status
      rw [hres]
  · subst h; rfl
  · subst h
    unfold JsonFieldValueCheck.get_status specTraversal
    rfl

/-- C1 (counterexample): `push_status` is an operation other than the
evaluate step, yet it changes `previous_component_status`: on a state whose
redundancy check finds a difference it re-syncs
`previous_component_status := component_status` before consulting
`trigger_update` — here even though `trigger_update` is false and no
external call happens. -/
theorem C1_push_status_writes_previous_counterexample :
    sampleOutageState.previous_component_status = ComponentStatus.OPERATIONAL ∧
    ((bpush ComponentStatus.OPERATIONAL sampleOutageState).1).previous_component_status =
      ComponentStatus.MAJOR_OUTAGE ∧
    (bpush ComponentStatus.OPERATIONAL sampleOutageState).2 = [] :=
  ⟨rfl, rfl, rfl⟩

/-- C1 (amended): at the moment `push_status` makes its redundancy check in
any cycle — after that cycle's evaluate and damping steps, over an
arbitrary prefix of earlier full cycles — `previous_component_status`
equals the classification of the immediately preceding cycle (the initial
status when there was none); `push_status` itself also writes
`previous_component_status` after a check that finds a change, but that
write is overwritten by the next cycle's evaluate step, so the check-time
property is preserved. -/
theorem C1_previous_status_at_redundancy_check (env : CycleEnv)
    (pre : List CycleInput) (cur : CycleInput) (b0 : BoundFields) :
    (statePreCheck env cur ((runCycles env pre b0).1)).previous_component_status =
      (pre.map CycleInput.classification).getLastD b0.component_status := by
  unfold statePreCheck
  rw [bdamp_previous, bupdate_previous, runCycles_component_status]

/-- C3: `if_trigger_update` with effective threshold `t` (the instance's
`allowed_fails` when set, else the caller-supplied default): a
non-operational status within tolerance increments `current_fails` and
lowers `trigger_update`, changing nothing else; an operational status or an
exceeded threshold resets `current_fails` to 0 and raises `trigger_update`;
and with `allowed_fails = 2`, three consecutive non-operational cycles show
`trigger_update` false, false, true at the damping step. -/
theorem C3_damping_policy (allowed_fails_default : Nat) (b : BoundFields) :
    (b.component_status ≠ ComponentStatus.OPERATIONAL →
      b.current_fails + 1 ≤ b.allowed_fails.getD allowed_fails_default →
      bdamp allowed_fails_default b =
        { b with current_fails := b.current_fails + 1, trigger_update := false }) ∧
    (b.component_status = ComponentStatus.OPERATIONAL ∨
        b.allowed_fails.getD allowed_fails_default < b.current_fails + 1 →
      bdamp allowed_fails_default b =
        { b with current_fails := 0, trigger_update := true }) ∧
    (statePreCheck sampleEnv sampleFailingInput sampleFreshState).trigger_update = false ∧
    (statePreCheck sampleEnv sampleFailingInput
      ((runCycle sampleEnv sampleFailingInput sampleFreshState).1)).trigger_update = false ∧
    (statePreCheck sampleEnv sampleFailingInput
      ((runCycles sampleEnv [sampleFailingInput, sampleFailingInput]
        sampleFreshState).1)).trigger_update = true := by
  refine ⟨fun hne hle => ?_, fun hor => ?_, by decide, by decide, by decide⟩
  · simp [bdamp, hne, hle]
  · rcases hor with hop | hlt
    · simp [bdamp, hop]
    · by_cases hs : b.component_status = ComponentStatus.OPERATIONAL
      · simp [bdamp, hs]
      · simp [bdamp, hs,
          show ¬(b.current_fails + 1 ≤ b.allowed_fails.getD allowed_fails_default) by omega]

/-- C3 witness: one non-operational evaluation within the threshold. -/
theorem C3_damping_policy_witness :
    bdamp 0 { sampleFreshState with
        component_status := ComponentStatus.PARTIAL_OUTAGE } =
      { sampleFreshState with
        component_status := ComponentStatus.PARTIAL_OUTAGE
        current_fails := 1, trigger_update := false } :=
  (C3_damping_policy 0 _).1 (by decide) (by decide)

/-- C5: when `previous_component_status` equals `component_status`,
`push_status` issues no backend call and sets `trigger_update := false`;
consequently a run of cycles whose evaluation keeps producing one constant
classification issues at most one backend status-push call in total. -/
theorem C5_status_push_idempotence :
    (∀ (api : ComponentStatus) (b : BoundFields),
      b.previous_component_status = b.component_status →
      bpush api b = ({ b with trigger_update := false }, [])) ∧
    (∀ (env : CycleEnv) (c : ComponentStatus) (inps : List CycleInput) (b : BoundFields),
      (∀ inp ∈ inps, inp.classification = c) →
      countPushStatus ((runCycles env inps b).2) ≤ 1) := by
  refine ⟨bpush_suppress, fun env c inps b h => ?_⟩
  cases inps with
  | nil => simp [runCycles, countPushStatus]
  | cons inp rest =>
    unfold runCycles countPushStatus
    rw [List.countP_append]
    have h1 := countPush_runCycle_le env inp b
    have h2 := countPush_runCycles_zero env c rest ((runCycle env inp b).1)
      ((runCycle_component_status env inp b).trans (h inp (List.mem_cons_self inp rest)))
      (fun i hi => h i (List.mem_cons_of_mem inp hi))
    unfold countPushStatus at h1 h2
    omega

/-- C5 witness: a suppressed push on an unchanged state, and a two-cycle
constant-classification run with at most one push. -/
theorem C5_status_push_idempotence_witness :
    bpush ComponentStatus.OPERATIONAL sampleFreshState =
      ({ sampleFreshState with trigger_update := false }, []) ∧
    countPushStatus ((runCycles sampleEnv [sampleFailingInput, sampleFailingInput]
      sampleFreshState).2) ≤ 1 :=
  ⟨C5_status_push_idempotence.1 ComponentStatus.OPERATIONAL sampleFreshState rfl,
   C5_status_push_idempotence.2 sampleEnv ComponentStatus.PARTIAL_OUTAGE
     [sampleFailingInput, sampleFailingInput] sampleFreshState (by decide)⟩

/-- C4: with `trigger_update` true, `push_incident` has exactly the two
transition edges: recovery (incident open, OPERATIONAL) issues one
incident-update call, clears `incident_id` only when the call succeeds, and
fires the webhooks either way; onset (no incident, non-OPERATIONAL) issues
one incident-create call carrying the current message, stores the returned
id only on success, and fires the webhooks either way; every other state
combination makes no external call and changes no state. -/
theorem C4_incident_edges (ok : Bool) (nid : Nat) (pub : Bool) (en t : String)
    (ws : List Webhook) (b : BoundFields) (htrig : b.trigger_update = true) :
    (∀ iid, b.incident_id = some iid → b.component_status = ComponentStatus.OPERATIONAL →
      bincident ok nid pub en t ws b =
        ((if ok then { b with incident_id := none } else b),
         Effect.incidentUpdateCall b.component_id b.component_status pub t iid
           :: btrigger_webhooks en t ws
             (if ok then { b with incident_id := none } else b))) ∧
    (b.incident_id = none → b.component_status ≠ ComponentStatus.OPERATIONAL →
      bincident ok nid pub en t ws b =
        ((if ok then { b with incident_id := some nid } else b),
         Effect.incidentCreateCall b.component_id b.component_status pub t b.message
           :: btrigger_webhooks en t ws
             (if ok then { b with incident_id := some nid } else b))) ∧
    ((b.incident_id ≠ none ∧ b.component_status ≠ ComponentStatus.OPERATIONAL) ∨
        (b.incident_id = none ∧ b.component_status = ComponentStatus.OPERATIONAL) →
      bincident ok nid pub en t ws b = (b, [])) := by
  refine ⟨fun iid hid hst => ?_, fun hid hst => ?_, fun hother => ?_⟩
  · simp only [bincident, htrig, hid, hst]
    cases ok <;> simp
  · simp only [bincident, htrig, hid, hst]
    cases ok <;> simp [hst]
  · rcases hother with ⟨hid, hst⟩ | ⟨hid, hst⟩
    · rcases hiid : b.incident_id with _ | iid
      · exact absurd hiid hid
      · simp only [bincident, htrig, hiid, hst]
        simp [hst]
    · simp only [bincident, htrig, hid, hst]
      simp

/-- C4 witness: the recovery edge on a concrete open-incident state with a
successful update call. -/
theorem C4_incident_edges_witness :
    bincident true 9 true "endpoint" "incident" [] sampleRecoveryState =
      ({ sampleRecoveryState with incident_id := none },
       [Effect.incidentUpdateCall 1 ComponentStatus.OPERATIONAL true "incident" 5]) := by
  have h := (C4_incident_edges true 9 true "endpoint" "incident" []
    sampleRecoveryState rfl).1 5 rfl rfl
  simpa [btrigger_webhooks] using h

/-- C2 (counterexample): the webhook delivery does not receive the derived
title: `trigger_webhooks` pushes the caller-supplied `incident_title`
(here "caller title") to the webhook while the title derived from the
three templates is "endpoint (Component comp) unavailable" and is used
only in log text. -/
theorem C2_webhook_title_counterexample :
    derivedTitle "endpoint" { sampleOutageState with trigger_update := true } =
      "endpoint (Component comp) unavailable" ∧
    btrigger_webhooks "endpoint" "caller title" [{ url := "http://hook", ok := false }]
      { sampleOutageState with trigger_update := true } =
      [Effect.webhookCall "http://hook" "caller title" "down"] ∧
    "caller title" ≠ "endpoint (Component comp) unavailable" :=
  ⟨rfl, rfl, by decide⟩

/-- C2 (amended): the title `trigger_webhooks` derives from the endpoint
name, the bound component's display name, and the current status follows
exactly the three templates, but is used only for logging; each configured
webhook instead receives the caller-supplied `incident_title` together
with the current message — one call per webhook, in order, so a delivery
failure on one webhook never prevents the remaining webhooks from being
attempted. -/
theorem C2_webhook_calls (endpoint_name incident_title : String)
    (ws : List Webhook) (b : BoundFields) :
    (b.component_status = ComponentStatus.PERFORMANCE_ISSUES →
      derivedTitle endpoint_name b =
        endpoint_name ++ " (Component " ++ b.componemt_name ++ ") degraded") ∧
    (b.component_status = ComponentStatus.OPERATIONAL →
      derivedTitle endpoint_name b =
        endpoint_name ++ " (Component " ++ b.componemt_name ++ ") OK") ∧
    (b.component_status ≠ ComponentStatus.PERFORMANCE_ISSUES →
      b.component_status ≠ ComponentStatus.OPERATIONAL →
      derivedTitle endpoint_name b =
        endpoint_name ++ " (Component " ++ b.componemt_name ++ ") unavailable") ∧
    (btrigger_webhooks endpoint_name incident_title ws b).length = ws.length ∧
    (∀ i, (hi : i < ws.length) →
      (btrigger_webhooks endpoint_name incident_title ws b)[i]? =
        some (Effect.webhookCall (ws.get ⟨i, hi⟩).url incident_title b.message)) := by
  refine ⟨fun h => ?_, fun h => ?_, fun h1 h2 => ?_, ?_, fun i hi => ?_⟩
  · simp [derivedTitle, h]
  · simp [derivedTitle, h]
  · simp [derivedTitle, h1, h2]
  · simp [btrigger_webhooks]
  · simp [btrigger_webhooks, List.getElem?_map, List.getElem?_eq_getElem hi]

/-- C2 witness: both template and delivery facts at a concrete state. -/
theorem C2_webhook_calls_witness :
    derivedTitle "endpoint" sampleOutageState =
      "endpoint (Component comp) unavailable" :=
  (C2_webhook_calls "endpoint" "caller title" [] sampleOutageState).2.2.1
    (by decide) (by decide)

/-- Reduction of `parse_range` on a string splitting into a single part. -/
theorem parse_range_str_single (s one : String) (hsp : pySplit '-' s = [one]) :
    HttpStatus.parse_range (.str s) =
      (match pyInt one with
       | some n => Except.ok (n, n + 1)
       | none => Except.error PyError.valueError) := by
  simp only [HttpStatus.parse_range, hsp]

/-- Reduction of `parse_range` on a string splitting into two or more parts. -/
theorem parse_range_str_multi (s a b : String) (rest : List String)
    (hsp : pySplit '-' s = a :: b :: rest) :
    HttpStatus.parse_range (.str s) =
      (match pyInt a, pyInt b with
       | some x, some y => Except.ok (x, y)
       | _, _ => Except.error PyError.valueError) := by
  simp only [HttpStatus.parse_range, hsp]

/-- The only error `parse_range` can produce is `ValueError`. -/
theorem parse_range_error_shape (rc : RangeConfig) (e : PyError)
    (h : HttpStatus.parse_range rc = .error e) : e = PyError.valueError := by
  cases rc with
  | int n => simp [HttpStatus.parse_range] at h
  | str s =>
    rcases hsp : pySplit '-' s with _ | ⟨a, _ | ⟨b, rest⟩⟩
    · exact absurd hsp (pySplit_ne_nil '-' s)
    · rw [parse_range_str_single s a hsp] at h
      cases h1 : pyInt a <;> rw [h1] at h
      · injection h with h2
        exact h2.symm
      · simp at h
    · rw [parse_range_str_multi s a b rest hsp] at h
      cases h1 : pyInt a <;> cases h2 : pyInt b <;> rw [h1, h2] at h
      · injection h with h3
        exact h3.symm
      · injection h with h3
        exact h3.symm
      · injection h with h3
        exact h3.symm
      · simp at h

/-- C9 (counterexample): a REGEX configuration whose pattern `"("` does not
compile makes `Expectation.create` fail with `re.error` at construction
(`re.compile` runs in `Regex.__init__` before the base constructor), and
`re.error` is not a configuration-validation failure — it is neither the
`ConfigurationValidationError` of an unknown type nor the `ValueError` of a
non-numeric status range. -/
theorem C9_regex_compile_counterexample :
    Expectation.create sampleReCompile emptyIncidentMap sampleConfigBadRegex sampleClient =
      .error .reError ∧
    isConfigValidationFailure .reError = false :=
  ⟨rfl, rfl⟩

/-- C9 (amended): `Expectation.create` on a configuration whose `type` is
none of HTTP_STATUS, LATENCY, REGEX, JSON_CHECK fails with a
`ConfigurationValidationError` whose message names the offending type
value; besides the configuration-validation failures (that error, and the
`ValueError` from a non-numeric HTTP status range), the only other failure
construction can raise is the `re.error` from `re.compile` on a REGEX
configuration whose pattern is invalid — which it does raise whenever the
pattern does not compile. -/
theorem C9_create_unknown_type (re_compile : String → Bool)
    (incident_map : String → Option ComponentStatus)
    (configuration : Configuration) (client : Client) :
    (configuration.type ∉ (["HTTP_STATUS", "LATENCY", "REGEX", "JSON_CHECK"] : List String) →
      Expectation.create re_compile incident_map configuration client =
        .error (.configurationValidationError ("Invalid type: " ++ configuration.type))) ∧
    (∀ err, Expectation.create re_compile incident_map configuration client = .error err →
      (∃ msg, err = PyError.configurationValidationError msg) ∨
        err = PyError.valueError ∨ err = PyError.reError) ∧
    (configuration.type = "REGEX" → re_compile configuration.regex = false →
      Expectation.create re_compile incident_map configuration client =
        .error .reError) := by
  refine ⟨?_, ?_, ?_⟩
  · intro h
    simp only [List.mem_cons, List.mem_singleton, not_or] at h
    obtain ⟨h1, h2, h3, h4, -⟩ := h
    simp [Expectation.create, h1, h2, h3, h4]
  · intro err herr
    unfold Expectation.create at herr
    split_ifs at herr with t1 t2 t3 t4 t5
    · rcases hpr : HttpStatus.parse_range configuration.status_range with e | r <;>
        rw [hpr] at herr
      · injection herr with h
        rw [← h, show e = PyError.valueError from
          parse_range_error_shape configuration.status_range e hpr]
        right
        left
        rfl
      · simp at herr
    · injection herr with h
      rw [← h]
      right
      right
      rfl
    · injection herr with h
      exact Or.inl ⟨_, h.symm⟩
  · intro ht hc
    simp [Expectation.create, ht, hc]

/-- C9 witness: the unknown type `"FOO"` is rejected with the message
naming it. -/
theorem C9_create_unknown_type_witness :
    Expectation.create sampleReCompile emptyIncidentMap sampleConfigFoo sampleClient =
      .error (.configurationValidationError "Invalid type: FOO") :=
  (C9_create_unknown_type sampleReCompile emptyIncidentMap sampleConfigFoo
    sampleClient).1 (by decide)

/-- C10: immediately after construction of a bound expectation,
`component_status` and `previous_component_status` both equal the status
returned by the single `get_component_name_and_status` query (the only
client call made), `current_fails` is 0, `trigger_update` is true,
`message` is empty, and `independent` defaults to false when
`is_independent` is absent. -/
theorem C10_initial_state (evaluator : Evaluator) (default_incident : ComponentStatus)
    (incident_map : String → Option ComponentStatus) (configuration : Configuration)
    (client : Client) (cid : Nat) (h : configuration.component_id = some cid) :
    ∃ b, (initExpectation evaluator default_incident incident_map configuration client).1.bound
        = some b ∧
      (initExpectation evaluator default_incident incident_map configuration client).2
        = [Effect.getComponentNameAndStatusCall cid] ∧
      b.component_status = (client.get_component_name_and_status cid).2 ∧
      b.previous_component_status = (client.get_component_name_and_status cid).2 ∧
      b.componemt_name = (client.get_component_name_and_status cid).1 ∧
      b.current_fails = 0 ∧
      b.trigger_update = true ∧
      b.message = "" ∧
      (configuration.is_independent = none → b.independent = false) := by
  unfold initExpectation
  rw [h]
  exact ⟨_, rfl, rfl, rfl, rfl, rfl, rfl, rfl, rfl, fun hi => by simp [hi]⟩

/-- C10 witness: constructing from the sample configuration makes exactly
one client query, for component 1. -/
theorem C10_initial_state_witness :
    (initExpectation (.httpStatus (200, 300)) ComponentStatus.PARTIAL_OUTAGE
      emptyIncidentMap sampleConfigHttp sampleClient).2 =
      [Effect.getComponentNameAndStatusCall 1] := by
  obtain ⟨b, -, h2, -⟩ := C10_initial_state (.httpStatus (200, 300))
    ComponentStatus.PARTIAL_OUTAGE emptyIncidentMap sampleConfigHttp sampleClient 1 rfl
  exact h2

/-- C6 witness: an unparsable body yields the resolved incident status. -/
theorem C6_json_field_value_check_witness :
    JsonFieldValueCheck.get_status (pySplit '.' "data.status") (.str "UP")
      ComponentStatus.PARTIAL_OUTAGE (.error ()) = ComponentStatus.PARTIAL_OUTAGE :=
  (C6_json_field_value_check "data.status" (.str "UP") ComponentStatus.PARTIAL_OUTAGE
    (.error ())).2.1 rfl

/-- C7 witness: the failure characterization at the non-numeric string
`"foo"`. -/
theorem C7_parse_range_round_trip_witness :
    HttpStatus.parse_range (.str "foo") = .error .valueError :=
  (C7_parse_range_round_trip.2.2.2.2.2 "foo").mpr (Or.inl ⟨"foo", rfl, rfl⟩)

end CachetUrlMonitor
